import Mathlib

/-!
# Verification of the MPI assessment-and-aggregation pipeline

Shallow embedding of the Dialog-Orchestrator evaluation core:

* `eval/run_mpi_http.py`   — the Assessment Runner (`MPIHTTPRunner.run_assessment`)
* `eval/mpi_aggregator.py` — the Aggregator (`MPIResultsAggregator`)
* `experiments/summarize.py` — the Summary Scanner (`score_item`, `scan_run_files`)
* `experiments/run_all.py` — the Experiment Orchestrator
  (`extract_means`, `compute_leakage`, `linear_fit`, the main condition loop)
* `experiments/checks.py`  — the validation gate (`check_sensitivity_analysis`)

Modelling conventions:

* Python floats are modelled as `Option ℚ`: `none` stands for IEEE `NaN`
  (the only NaN producers in this code are the explicit `float("nan")`
  branches), `some q` for an ordinary finite value.  All arithmetic that the
  source performs on non-NaN values is exact rational arithmetic here.
* Quantities that the source exposes only under a square root are modelled by
  their squares (`std_sq` for `statistics.stdev`, `rmse_sq` for the RMSE):
  for nonnegative arguments, `math.sqrt` is injective and sends `0` to `0`,
  so equalities and NaN/zero-ness transfer faithfully.
* The Pearson correlation is modelled by the inductive `CorrVal`, recording
  exactly the branch taken by `_pearson_correlation`: `nan` for the
  `len < 2` branch, `zero` for the explicit `0.0` fallback when the
  denominator vanishes, and `ratio num denSq` for `num / sqrt denSq`
  (the denominator `sqrt((n·Sxx − Sx²)·(n·Syy − Sy²))` vanishes iff the
  radicand does, since the radicand is a product of two nonnegatives).
* JSON dictionaries read with `.get(key, default)` are modelled as
  association lists with a total lookup-with-default.
-/

/-- Score mapping from A-E to numerical values (`SCORES` in
`eval/mpi_aggregator.py` and `experiments/summarize.py`). -/
def SCORES (choice : String) : Option ℚ :=
  if choice = "A" then some 5
  else if choice = "B" then some 4
  else if choice = "C" then some 3
  else if choice = "D" then some 2
  else if choice = "E" then some 1
  else none

/-- The five OCEAN trait codes, in the order the source iterates them
(`traits = {"O": [], "C": [], "E": [], "A": [], "N": []}`). -/
def OCEAN_CODES : List String := ["O", "C", "E", "A", "N"]

/-- One entry of a RunArtifact's `results` list, with the fields the
pipeline reads downstream (`label_raw`, `item_text`, `label_ocean`, `key`,
`parsed_choice`, `response`, `raw_output`, `latency_ms`, `attempts`). -/
structure MPIResult where
  label_raw : String
  item_text : String
  label_ocean : String
  key : ℤ
  parsed_choice : String
  response : String
  raw_output : String
  latency_ms : ℕ
  attempts : ℕ
deriving DecidableEq

namespace Agg

/-- Branch taken by `MPIResultsAggregator._pearson_correlation`. -/
inductive CorrVal where
  /-- `float("nan")`: fewer than two points. -/
  | nan : CorrVal
  /-- the explicit `0.0` returned when the denominator is zero. -/
  | zero : CorrVal
  /-- `num / math.sqrt denSq` with `denSq ≠ 0`. -/
  | ratio (num denSq : ℚ) : CorrVal
deriving DecidableEq

/-- Radicand of the Pearson denominator:
`(n*sum_x_sq - sum_x**2) * (n*sum_y_sq - sum_y**2)`. -/
def pearson_den_sq (x y : List ℚ) : ℚ :=
  let n : ℚ := x.length
  ((n * (x.map fun v => v * v).sum - x.sum * x.sum) *
   (n * (y.map fun v => v * v).sum - y.sum * y.sum))

/-- `MPIResultsAggregator._pearson_correlation`. -/
def pearson_correlation (x y : List ℚ) : CorrVal :=
  if x.length ≠ y.length ∨ x.length < 2 then .nan
  else
    let n : ℚ := x.length
    let num := n * (List.zipWith (· * ·) x y).sum - x.sum * y.sum
    if pearson_den_sq x y = 0 then .zero else .ratio num (pearson_den_sq x y)

/-- Score of one choice letter (`SCORES[choice]` lookup guarded by
`if choice not in SCORES`). -/
def choice_score (choice : String) : Option ℚ := SCORES choice

/-- Final per-item score in `aggregate_traits`: the raw `SCORES` value,
reversed (`score = 6 - score`) when `key != 1`. -/
def final_score (choice : String) (key : ℤ) : Option ℚ :=
  (choice_score choice).map fun s => if key = 1 then s else 6 - s

/-- The per-trait score list built by the `aggregate_traits` loop
(`traits[trait_code].append(score)`), in result order. -/
def agg_trait_scores (results : List MPIResult) (c : String) : List ℚ :=
  results.filterMap fun r =>
    match final_score r.parsed_choice r.key with
    | none => none
    | some s => if r.label_ocean = c then some s else none

/-- Number of results whose `parsed_choice` is not a scored letter
(`unk_items` in the aggregated metadata). -/
def unk_count (results : List MPIResult) : ℕ :=
  (results.filter fun r => (choice_score r.parsed_choice).isNone).length

/-- `valid_items = sum(len(scores) for scores in traits.values())`. -/
def valid_items (results : List MPIResult) : ℕ :=
  (OCEAN_CODES.map fun c => (agg_trait_scores results c).length).sum

/-- `completion_rate`: `valid_items / total_items if total_items > 0 else 0`. -/
def completion_rate (results : List MPIResult) : ℚ :=
  if results.length = 0 then 0 else (valid_items results : ℚ) / results.length

/-- Per-trait statistics record of `aggregate_traits` (`trait_summary`).
`std_sq` models the square of `statistics.stdev` (the sample variance);
`min`, `max`, `mean`, `median` are the source fields, `none` = NaN. -/
structure TraitStats where
  n_items : ℕ
  mean : Option ℚ
  std_sq : Option ℚ
  min : Option ℚ
  max : Option ℚ
  median : Option ℚ
  scores : List ℚ
deriving DecidableEq

/-- Sample variance `sum((x - mean)^2) / (n - 1)` (square of
`statistics.stdev`). -/
def sample_var (scores : List ℚ) : ℚ :=
  let m := scores.sum / scores.length
  (scores.map fun v => (v - m) * (v - m)).sum / ((scores.length : ℚ) - 1)

/-- `statistics.median`: middle element of the sorted list for odd length,
mean of the two middle elements for even length. -/
def median_q (scores : List ℚ) : ℚ :=
  let s := scores.mergeSort (fun a b => decide (a ≤ b))
  if scores.length % 2 = 1 then s.getD (scores.length / 2) 0
  else (s.getD (scores.length / 2 - 1) 0 + s.getD (scores.length / 2) 0) / 2

/-- The per-trait branch of `aggregate_traits`: full statistics when the
trait has scores, the explicit `float("nan")` record when it has none. -/
def trait_stats (scores : List ℚ) : TraitStats :=
  if scores.isEmpty then
    { n_items := 0, mean := none, std_sq := none, min := none, max := none,
      median := none, scores := [] }
  else
    { n_items := scores.length
      mean := some (scores.sum / scores.length)
      std_sq := some (if 1 < scores.length then sample_var scores else 0)
      min := scores.min?
      max := scores.max?
      median := some (median_q scores)
      scores := scores }

/-- `trait_summary[c]` for a run's results. -/
def trait_summary (results : List MPIResult) (c : String) : TraitStats :=
  trait_stats (agg_trait_scores results c)

/-- The `(persona_value, measured_value)` pairs collected by
`compare_with_persona`, in trait-dictionary order, over traits present in
the (already name-mapped) persona and with non-NaN measured mean. -/
def compared_pairs (persona : String → Option ℚ) (results : List MPIResult) :
    List (ℚ × ℚ) :=
  OCEAN_CODES.filterMap fun c =>
    match persona c, (trait_summary results c).mean with
    | some pv, some mv => some (pv, mv)
    | _, _ => none

/-- Overall metrics of `compare_with_persona`.  `rmse_sq` models the square
of the reported RMSE (`rmse = sqrt(mean(error^2))`). -/
structure CompareOut where
  correlation : CorrVal
  mae : Option ℚ
  rmse_sq : Option ℚ
  traits_compared : ℕ
deriving DecidableEq

/-- `MPIResultsAggregator.compare_with_persona` (overall metrics), taking
the persona already mapped to trait codes (`persona_mapped`). -/
def compare_with_persona (persona : String → Option ℚ)
    (results : List MPIResult) : CompareOut :=
  let pairs := compared_pairs persona results
  if pairs.isEmpty then
    { correlation := .nan, mae := none, rmse_sq := none, traits_compared := 0 }
  else
    { correlation :=
        pearson_correlation (pairs.map Prod.fst) (pairs.map Prod.snd)
      mae := some ((pairs.map fun p => |p.2 - p.1|).sum / pairs.length)
      rmse_sq :=
        some ((pairs.map fun p => (p.2 - p.1) * (p.2 - p.1)).sum / pairs.length)
      traits_compared := pairs.length }

end Agg

namespace Scan

/-- `summarize.score_item` choice resolution:
`result.get("parsed_choice") or result.get("response") or "UNK"`
(Python `or`: an empty string falls through to the next alternative). -/
def scanner_choice (r : MPIResult) : String :=
  if r.parsed_choice ≠ "" then r.parsed_choice
  else if r.response ≠ "" then r.response
  else "UNK"

/-- `summarize.score_item`: `(trait_code, score)`, `score = None` if the
resolved choice is not in `SCORES`, reversed when `key != 1`. -/
def score_item (r : MPIResult) : String × Option ℚ :=
  (r.label_ocean,
    (SCORES (scanner_choice r)).map fun s => if r.key = 1 then s else 6 - s)

/-- The per-trait score list built by the `scan_run_files` loop
(`trait_totals[trait].append(score)`). -/
def scan_trait_scores (results : List MPIResult) (c : String) : List ℚ :=
  results.filterMap fun r =>
    match score_item r with
    | (t, some s) => if t = c then some s else none
    | (_, none) => none

/-- `valid_responses`: items with a defined score and a trait code that is a
key of `trait_totals`. -/
def valid_responses (results : List MPIResult) : ℕ :=
  (results.filter fun r =>
    (score_item r).2.isSome && decide ((score_item r).1 ∈ OCEAN_CODES)).length

/-- `unknown_responses`: items whose score is `None`. -/
def unknown_responses (results : List MPIResult) : ℕ :=
  (results.filter fun r => (score_item r).2.isNone).length

/-- `total_responses = valid_responses + unknown_responses`. -/
def total_responses (results : List MPIResult) : ℕ :=
  valid_responses results + unknown_responses results

/-- The scanner's per-trait mean:
`statistics.mean(scores) if scores else 0.0` — always a finite value
(`some`), `0` for a trait with no valid items. -/
def trait_mean (results : List MPIResult) (c : String) : Option ℚ :=
  let scores := scan_trait_scores results c
  if scores.isEmpty then some 0 else some (scores.sum / scores.length)

/-- `unk_rate = unknown_responses / total_responses if total_responses > 0
else 0.0`. -/
def unk_rate (results : List MPIResult) : ℚ :=
  if total_responses results = 0 then 0
  else (unknown_responses results : ℚ) / total_responses results

/-- The scanner's correlation column: `float("nan")` when the condition has
no persona, otherwise the aggregator's `compare_with_persona` correlation. -/
def scan_correlation (persona : Option (String → Option ℚ))
    (results : List MPIResult) : Agg.CorrVal :=
  match persona with
  | none => .nan
  | some p => (Agg.compare_with_persona p results).correlation

/-- The scanner's MAE column (same aggregator path). -/
def scan_mae (persona : Option (String → Option ℚ))
    (results : List MPIResult) : Option ℚ :=
  match persona with
  | none => none
  | some p => (Agg.compare_with_persona p results).mae

/-- The scanner's RMSE column, squared (same aggregator path). -/
def scan_rmse_sq (persona : Option (String → Option ℚ))
    (results : List MPIResult) : Option ℚ :=
  match persona with
  | none => none
  | some p => (Agg.compare_with_persona p results).rmse_sq

end Scan

namespace Runner

/-- An HTTP exchange that completed without raising, as seen by
`MPIHTTPRunner.run_assessment`: status code, whether the JSON envelope had
`status == "success"`, and the data fields the runner reads from it
(`parsed_choice` defaults to `"UNK"` via `.get`). -/
structure DialogResponse where
  status_code : ℕ
  env_success : Bool
  parsed_choice : String
  response_text : String
  raw_output : String
  latency_ms : ℕ
deriving DecidableEq

/-- One attempt's outcome: `none` models `self.session.post` raising an
exception, `some r` a completed exchange. -/
abbrev Attempt := Option DialogResponse

/-- An inventory item as loaded by `load_mpi_items`. -/
structure Item where
  label_raw : String
  text : String
  label_ocean : String
  key : ℤ
deriving DecidableEq

/-- The `result_entry` dict appended to `results` (fields the pipeline
reads downstream). -/
def mkEntry (item : Item) (r : DialogResponse) (attempts : ℕ) : MPIResult :=
  { label_raw := item.label_raw
    item_text := item.text
    label_ocean := item.label_ocean
    key := item.key
    parsed_choice := r.parsed_choice
    response := r.response_text
    raw_output := r.raw_output
    latency_ms := r.latency_ms
    attempts := attempts }

/-- Net effect of processing one item: the appended `result_entry` (if
any), the number of HTTP requests issued, and the increments to the
`stats` counters. -/
structure ItemOutcome where
  entry : Option MPIResult
  requests : ℕ
  successful : ℕ
  unknown : ℕ
  retried : ℕ
  errors : ℕ
deriving DecidableEq

/-- Did the attempt return HTTP 200 with a `status == "success"`
envelope? -/
def settled (a : Attempt) : Bool :=
  match a with
  | some r => (r.status_code == 200) && r.env_success
  | none => false

/-- Continuation after a failed first attempt (exception, non-200 status,
or non-success envelope): `stats["errors"] += 1` already happened; the
attempt loop then moves on to attempt 2 — which exists exactly when
`retry_unk` is true (`range(1, 3 if retry_unk else 2)`).  On attempt 2 the
UNK-retry guard is dead (`attempt == 1` fails), so any settled response is
recorded; note the recorded `attempts` field is still 1, since `attempts`
is only incremented on the UNK-retry path. -/
def after_first_error (retryUnk : Bool) (item : Item) (a2 : Attempt) :
    ItemOutcome :=
  if retryUnk then
    match a2 with
    | some r2 =>
      if (r2.status_code == 200) && r2.env_success then
        { entry := some (mkEntry item r2 1), requests := 2
          successful := if r2.parsed_choice == "UNK" then 0 else 1
          unknown := if r2.parsed_choice == "UNK" then 1 else 0
          retried := 0, errors := 1 }
      else
        { entry := none, requests := 2, successful := 0, unknown := 0
          retried := 0, errors := 2 }
    | none =>
        { entry := none, requests := 2, successful := 0, unknown := 0
          retried := 0, errors := 2 }
  else
    { entry := none, requests := 1, successful := 0, unknown := 0
      retried := 0, errors := 1 }

/-- The body of the item loop of `MPIHTTPRunner.run_assessment` for an item
with nonempty text: the attempt loop `for attempt in range(1, 3 if
retry_unk else 2)`, fed by the outcomes `a1`, `a2` of the (at most two)
HTTP requests. -/
def run_assessment_item (retryUnk : Bool) (item : Item) (a1 a2 : Attempt) :
    ItemOutcome :=
  match a1 with
  | some r1 =>
    if (r1.status_code == 200) && r1.env_success then
      if (r1.parsed_choice == "UNK") && retryUnk then
        -- UNK on attempt 1 with retry enabled: `stats["retried"] += 1`,
        -- `attempts += 1`, `continue` to attempt 2.
        match a2 with
        | some r2 =>
          if (r2.status_code == 200) && r2.env_success then
            { entry := some (mkEntry item r2 2), requests := 2
              successful := if r2.parsed_choice == "UNK" then 0 else 1
              unknown := if r2.parsed_choice == "UNK" then 1 else 0
              retried := 1, errors := 0 }
          else
            { entry := none, requests := 2, successful := 0, unknown := 0
              retried := 1, errors := 1 }
        | none =>
            { entry := none, requests := 2, successful := 0, unknown := 0
              retried := 1, errors := 1 }
      else
        { entry := some (mkEntry item r1 1), requests := 1
          successful := if r1.parsed_choice == "UNK" then 0 else 1
          unknown := if r1.parsed_choice == "UNK" then 1 else 0
          retried := 0, errors := 0 }
    else
      after_first_error retryUnk item a2
  | none => after_first_error retryUnk item a2

/-- Run-level output: the artifact's `results` list and the `stats`
dictionary. -/
structure RunOutput where
  results : List MPIResult
  total_items : ℕ
  successful : ℕ
  unknown : ℕ
  retried : ℕ
  errors : ℕ
deriving DecidableEq

/-- `MPIHTTPRunner.run_assessment`: each row pairs an item (already in
processing order) with the outcomes of its at most two requests.  An item
with empty text is skipped with `stats["errors"] += 1` before any request
is issued. -/
def run_assessment (retryUnk : Bool) :
    List (Item × Attempt × Attempt) → RunOutput
  | [] => { results := [], total_items := 0, successful := 0, unknown := 0,
            retried := 0, errors := 0 }
  | (item, a1, a2) :: rest =>
    let o :=
      if item.text = "" then
        ({ entry := none, requests := 0, successful := 0, unknown := 0,
           retried := 0, errors := 1 } : ItemOutcome)
      else run_assessment_item retryUnk item a1 a2
    let tail := run_assessment retryUnk rest
    { results := o.entry.toList ++ tail.results
      total_items := tail.total_items + 1
      successful := o.successful + tail.successful
      unknown := o.unknown + tail.unknown
      retried := o.retried + tail.retried
      errors := o.errors + tail.errors }

/-- Did the first attempt settle the item without a retry: a 200
success-envelope response with a non-UNK parsed choice? -/
def first_attempt_resolved (a1 : Attempt) : Bool :=
  match a1 with
  | some r =>
      (r.status_code == 200) && r.env_success && !(r.parsed_choice == "UNK")
  | none => false

end Runner

namespace Orch

/-- `run_all.SEEDS`. -/
def SEEDS : List ℕ := [111, 222, 333]

/-- `run_all.ORDER_SEEDS`. -/
def ORDER_SEEDS : List (Option ℕ) := [none, some 7]

/-- The keys of `run_all.CONDITIONS`, in dict insertion order. -/
def CONDITION_NAMES : List String :=
  ["NEUTRAL", "E_HIGH", "C_HIGH", "N_LOW", "E_20", "E_30", "E_40", "E_50",
   "TEST_USER"]

/-- `ordered_conditions = ["NEUTRAL"] + [k for k in CONDITIONS if k !=
"NEUTRAL"]`. -/
def ordered_conditions : List String :=
  "NEUTRAL" :: CONDITION_NAMES.filter (fun c => c ≠ "NEUTRAL")

/-- The (condition, seed, order-seed) combinations in execution order:
outer loop over `ordered_conditions`, then `for seed in SEEDS`, then
`for order_seed in ORDER_SEEDS`.  `run_mpi` uses `subprocess.run(...,
check=True)`, so a failing combination aborts the whole program and later
combinations are reached only after all earlier ones completed. -/
def experiment_steps : List (String × ℕ × Option ℕ) :=
  ordered_conditions.flatMap fun c =>
    SEEDS.flatMap fun s => ORDER_SEEDS.map fun o => (c, s, o)

/-- One pass of the master loop over the baseline cache: a `NEUTRAL`
combination stores its means (`baselines[key] = means`); any other
combination is checked for a cached baseline at its `(seed, order_seed)`
key.  The boolean records whether every non-baseline combination found its
baseline already cached. -/
def baseline_cache_ok : Bool :=
  (experiment_steps.foldl
    (fun (st : List (ℕ × Option ℕ) × Bool) step =>
      match step with
      | (cond, s, o) =>
        if cond = "NEUTRAL" then ((s, o) :: st.1, st.2)
        else (st.1, st.2 && st.1.contains (s, o)))
    ([], true)).2

/-- `run_all.extract_means`: reads `trait_summary[code]["mean"]` for the
five codes; maps NaN to NaN and any other value to itself. -/
def extract_means (results : List MPIResult) (c : String) : Option ℚ :=
  (Agg.trait_summary results c).mean

/-- `run_all.compute_leakage`: mean of `abs(means[c] - baseline[c])` over
the trait codes other than the target, skipping codes where either value is
missing or NaN; `None` without a target or with no usable code. -/
def compute_leakage (means baseline : String → Option ℚ)
    (target : Option String) : Option ℚ :=
  match target with
  | none => none
  | some t =>
    let deltas := (OCEAN_CODES.filter fun c => c ≠ t).filterMap fun c =>
      match means c, baseline c with
      | some a, some b => some |a - b|
      | _, _ => none
    if deltas.isEmpty then none else some (deltas.sum / deltas.length)

/-- The leakage value the master loop writes for one combination: `None`
for the `NEUTRAL` condition itself (only the cache is updated), `None`
when no baseline is cached for the `(seed, order_seed)` key, otherwise
`compute_leakage`. -/
def leakage_in_main (baselines : ℕ × Option ℕ → Option (String → Option ℚ))
    (key : ℕ × Option ℕ) (cond : String) (means : String → Option ℚ)
    (target : Option String) : Option ℚ :=
  if cond = "NEUTRAL" then none
  else
    match baselines key with
    | none => none
    | some base => compute_leakage means base target

/-- `n * sxx - sx * sx`, the denominator of the slope in
`run_all.linear_fit`. -/
def fit_denom (x : List ℚ) : ℚ :=
  (x.length : ℚ) * (x.map fun v => v * v).sum - x.sum * x.sum

/-- The slope `(n * sxy - sx * sy) / denom` of `run_all.linear_fit`. -/
def fit_slope (x y : List ℚ) : ℚ :=
  ((x.length : ℚ) * (List.zipWith (· * ·) x y).sum - x.sum * y.sum) /
    fit_denom x

/-- `ss_tot = sum((v - my) ** 2 for v in y)` with `my = sy / n` and
`n = len(x)` as in the source. -/
def ss_tot (x y : List ℚ) : ℚ :=
  let my := y.sum / x.length
  (y.map fun v => (v - my) * (v - my)).sum

/-- `ss_res = sum((yi - (slope * (xi - mx) + my)) ** 2 ...)`. -/
def ss_res (x y : List ℚ) : ℚ :=
  let mx := x.sum / x.length
  let my := y.sum / x.length
  let slope := fit_slope x y
  (List.zipWith (fun xi yi =>
    (yi - (slope * (xi - mx) + my)) * (yi - (slope * (xi - mx) + my))) x y).sum

/-- `run_all.linear_fit`: returns `(slope, r2)`, each `none` = NaN.  NaN
for fewer than two points or a zero slope denominator; `r2` is NaN when
`ss_tot` is not positive (the source also computes `syy`, which it never
uses). -/
def linear_fit (x y : List ℚ) : Option ℚ × Option ℚ :=
  if x.length < 2 then (none, none)
  else if fit_denom x = 0 then (none, none)
  else
    (some (fit_slope x y),
     if 0 < ss_tot x y then some (1 - ss_res x y / ss_tot x y) else none)

/-- Residual sum of squares of an arbitrary affine fit `y ≈ a·x + b` —
the quantity ordinary least squares minimises. -/
def rss (x y : List ℚ) (a b : ℚ) : ℚ :=
  (List.zipWith (fun xi yi => (yi - (a * xi + b)) * (yi - (a * xi + b))) x y).sum

/-- The intercept `my - slope * mx` implicit in `linear_fit`'s residual
`slope * (xi - mx) + my`. -/
def fit_intercept (x y : List ℚ) : ℚ :=
  y.sum / x.length - fit_slope x y * (x.sum / x.length)

end Orch

namespace Checks

/-- A JSON object with numeric fields, as read back by
`check_sensitivity_analysis`; `get` models Python's `dict.get(key,
default)`. -/
structure SensJson where
  entries : List (String × ℚ)
deriving DecidableEq

/-- `sensitivity.get(key, default)`. -/
def SensJson.get (j : SensJson) (key : String) (default : ℚ) : ℚ :=
  match j.entries.find? (fun e => e.1 = key) with
  | some e => e.2
  | none => default

/-- `THRESHOLDS["sensitivity_r2_min"]`. -/
def sensitivity_r2_min : ℚ := 17 / 20

/-- `THRESHOLDS["sensitivity_slope_tolerance"]`. -/
def sensitivity_slope_tolerance : ℚ := 1 / 4

/-- `checks.check_sensitivity_analysis` on a present artifact file with
numeric `slope`/`r2`-like fields: the gate passes iff neither the R²
criterion (`r2 < 0.85`, with `r2 = sensitivity.get("r_squared", 0)`) nor
the slope criterion (`abs(slope - 1.0) > 0.25`) raises an issue; a missing
file fails. -/
def check_sensitivity_analysis (artifact : Option SensJson) : Bool :=
  match artifact with
  | none => false
  | some j =>
    let r2 := j.get "r_squared" 0
    let slope := j.get "slope" 0
    !(decide (r2 < sensitivity_r2_min)) &&
      !(decide (|slope - 1| > sensitivity_slope_tolerance))

/-- The numeric fields of the sensitivity artifact written by the
Orchestrator (`run_all.main`): `{"target_trait": ..., "pairs": [...],
"slope": slope, "r2": r2}` — its numeric top-level keys are `slope` and
`r2` (`target_trait` is a string and `pairs` a list, neither read by the
gate's numeric lookups). -/
def orchestrator_artifact (slope r2 : ℚ) : SensJson :=
  { entries := [("slope", slope), ("r2", r2)] }

/-- Modelled from the spec: the gate decision the claim describes — pass
iff the artifact exists, its recorded `r2` is at least the minimum
threshold and its recorded slope deviates from 1.0 by at most the
tolerance. -/
def claimed_sensitivity_gate (artifact : Option SensJson) : Bool :=
  match artifact with
  | none => false
  | some j =>
    decide (sensitivity_r2_min ≤ j.get "r2" 0) &&
      decide (|j.get "slope" 0 - 1| ≤ sensitivity_slope_tolerance)

end Checks

section DemoData

/-- A sample inventory item with nonempty text. -/
def demo_item : Runner.Item :=
  { label_raw := "X1", text := "are always prepared", label_ocean := "C",
    key := 1 }

/-- A second sample item. -/
def demo_item2 : Runner.Item :=
  { label_raw := "X2", text := "get stressed out easily", label_ocean := "N",
    key := -1 }

/-- A 200 success-envelope response parsing to choice A. -/
def ok_response_A : Runner.DialogResponse :=
  { status_code := 200, env_success := true, parsed_choice := "A",
    response_text := "A", raw_output := "A", latency_ms := 10 }

/-- Two-item run: the first item's two attempts both raise a transport
exception, the second item succeeds on the first attempt. -/
def demo_rows : List (Runner.Item × Runner.Attempt × Runner.Attempt) :=
  [(demo_item, none, none), (demo_item2, some ok_response_A, none)]

/-- A one-result artifact whose single response is the unknown sentinel. -/
def demo_unk : List MPIResult :=
  [{ label_raw := "X1", item_text := "are always prepared",
     label_ocean := "O", key := 1, parsed_choice := "UNK", response := "",
     raw_output := "??", latency_ms := 10, attempts := 2 }]

/-- A one-result artifact with a valid choice on trait O (so every other
trait has zero valid items). -/
def demo_valid_O : List MPIResult :=
  [{ label_raw := "X1", item_text := "have a vivid imagination",
     label_ocean := "O", key := 1, parsed_choice := "A", response := "A",
     raw_output := "A", latency_ms := 10, attempts := 1 }]

/-- A five-result artifact, one valid item per trait. -/
def demo_results5 : List MPIResult :=
  [{ label_raw := "X1", item_text := "t1", label_ocean := "O", key := 1,
     parsed_choice := "A", response := "A", raw_output := "A",
     latency_ms := 10, attempts := 1 },
   { label_raw := "X2", item_text := "t2", label_ocean := "C", key := 1,
     parsed_choice := "B", response := "B", raw_output := "B",
     latency_ms := 10, attempts := 1 },
   { label_raw := "X3", item_text := "t3", label_ocean := "E", key := -1,
     parsed_choice := "C", response := "C", raw_output := "C",
     latency_ms := 10, attempts := 1 },
   { label_raw := "X4", item_text := "t4", label_ocean := "A", key := 1,
     parsed_choice := "D", response := "D", raw_output := "D",
     latency_ms := 10, attempts := 1 },
   { label_raw := "X5", item_text := "t5", label_ocean := "N", key := -1,
     parsed_choice := "E", response := "E", raw_output := "E",
     latency_ms := 10, attempts := 1 }]

/-- The neutral persona: every trait code mapped to 3.0. -/
def persona3 : String → Option ℚ := fun c =>
  if c = "O" then some 3 else if c = "C" then some 3
  else if c = "E" then some 3 else if c = "A" then some 3
  else if c = "N" then some 3 else none

/-- The measured means of the spec's leakage example:
`{O: 3.1, C: 2.9, E: 4.4, A: 3.0, N: 3.05}`. -/
def ex_means : String → Option ℚ := fun c =>
  if c = "O" then some (31 / 10) else if c = "C" then some (29 / 10)
  else if c = "E" then some (22 / 5) else if c = "A" then some 3
  else if c = "N" then some (61 / 20) else none

/-- The baseline means of the spec's leakage example: all traits 3.0. -/
def ex_baseline : String → Option ℚ := persona3

/-- A reverse-keyed extraversion result answered A. -/
def demo_rev : MPIResult :=
  { label_raw := "X9", item_text := "t9", label_ocean := "E", key := -1,
    parsed_choice := "A", response := "", raw_output := "A",
    latency_ms := 0, attempts := 1 }

/-- Two valid results on traits O and C, both answered A forward-keyed
(so both measured means are 5 and the neutral persona contributes two
identical x-values to the correlation). -/
def demo_two_OC : List MPIResult :=
  [{ label_raw := "Y1", item_text := "t1", label_ocean := "O", key := 1,
     parsed_choice := "A", response := "A", raw_output := "A",
     latency_ms := 10, attempts := 1 },
   { label_raw := "Y2", item_text := "t2", label_ocean := "C", key := 1,
     parsed_choice := "A", response := "A", raw_output := "A",
     latency_ms := 10, attempts := 1 }]

end DemoData

/-- **C9** — In every execution of the experiment matrix, the baseline
(`NEUTRAL`) combination for each (seed, order-seed) pair is processed and
cached before any other condition sharing that pair: replaying the master
loop of `run_all.main` over its concrete condition × seed × order-seed
matrix, every non-`NEUTRAL` combination finds its `(seed, order_seed)`
baseline already in the cache. -/
theorem C9_baseline_before_condition : Orch.baseline_cache_ok = true := by
  decide

/-- **C8** — The sensitivity gate does *not* reflect the Orchestrator's
recorded `r2`: `check_sensitivity_analysis` reads the key `"r_squared"`,
which the artifact written by `run_all.main` (keys `slope` and `r2`) never
contains, so the lookup defaults to `0 < 0.85` and the gate fails for
*every* recorded `slope` and `r2` — while the gate the claim (and the
producer's schema) describes passes e.g. the artifact with slope 1.0 and
r2 0.95. -/
theorem C8_sensitivity_gate_key_mismatch :
    (∀ slope r2 : ℚ,
      Checks.check_sensitivity_analysis
        (some (Checks.orchestrator_artifact slope r2)) = false)
    ∧ Checks.claimed_sensitivity_gate
        (some (Checks.orchestrator_artifact 1 (19 / 20))) = true := by
  constructor
  · intro slope r2
    simp [Checks.check_sensitivity_analysis, Checks.orchestrator_artifact,
      Checks.SensJson.get, List.find?, Checks.sensitivity_r2_min]
  · simp [Checks.claimed_sensitivity_gate, Checks.orchestrator_artifact,
      Checks.SensJson.get, List.find?, Checks.sensitivity_r2_min,
      Checks.sensitivity_slope_tolerance]
    norm_num

/-- **C7** — Leakage semantics of `run_all`: undefined without a target
trait; undefined when no baseline is cached for the (seed, order-seed)
key; computed from the cached baseline otherwise; undefined when no
non-target trait code has defined values in both vectors; and on the
spec's example (baseline all 3.0, target E, measured
{O: 3.1, C: 2.9, E: 4.4, A: 3.0, N: 3.05}) equal to
mean(0.1, 0.1, 0.0, 0.05) = 0.0625 = 1/16. -/
theorem C7_leakage_semantics
    (baselines : ℕ × Option ℕ → Option (String → Option ℚ))
    (key : ℕ × Option ℕ) (cond : String) (means base : String → Option ℚ)
    (t : String) :
    Orch.compute_leakage means base none = none
    ∧ (baselines key = none →
        Orch.leakage_in_main baselines key cond means (some t) = none)
    ∧ (∀ b', baselines key = some b' → cond ≠ "NEUTRAL" →
        Orch.leakage_in_main baselines key cond means (some t)
          = Orch.compute_leakage means b' (some t))
    ∧ ((∀ c ∈ OCEAN_CODES, c ≠ t → means c = none ∨ base c = none) →
        Orch.compute_leakage means base (some t) = none)
    ∧ Orch.compute_leakage ex_means ex_baseline (some "E") = some (1 / 16) :=
  by
  refine ⟨rfl, ?_, ?_, ?_, ?_⟩
  · intro hnone
    by_cases hc : cond = "NEUTRAL" <;>
      simp [Orch.leakage_in_main, hc, hnone]
  · intro b' hsome hc
    simp [Orch.leakage_in_main, hc, hsome]
  · intro hall
    simp only [Orch.compute_leakage]
    rw [List.filterMap_eq_nil_iff.mpr, List.isEmpty_nil]
    · simp
    · intro c hc
      have hmem := List.mem_filter.mp hc
      have hne : c ≠ t := by simpa using hmem.2
      rcases hall c hmem.1 hne with h | h
      · simp [h]
      · cases hm : means c <;> simp [h, hm]
  · simp [Orch.compute_leakage, ex_means, ex_baseline, persona3, OCEAN_CODES]
    norm_num [abs_of_nonneg, abs_of_nonpos]

/-- **C7 witness** — the leakage semantics instantiated: with an empty
baseline cache the row's leakage is null, and the spec's worked example
evaluates to 1/16 = 0.0625. -/
theorem C7_leakage_semantics_witness :
    (fun _ : ℕ × Option ℕ => (none : Option (String → Option ℚ)))
        (111, none) = none
    ∧ Orch.leakage_in_main (fun _ => none) (111, none) "E_HIGH" ex_means
        (some "E") = none
    ∧ Orch.compute_leakage ex_means ex_baseline (some "E") = some (1 / 16) := by
  refine ⟨rfl, ?_, ?_⟩
  · exact (C7_leakage_semantics (fun _ => none) (111, none) "E_HIGH" ex_means
      ex_baseline "E").2.1 rfl
  · exact (C7_leakage_semantics (fun _ => none) (111, none) "E_HIGH" ex_means
      ex_baseline "E").2.2.2.2

/-- **C5** — the fixed scoring rubric: a parsed
choice in A–E scores A=5, B=4, C=3, D=2, E=1; the final score is the
forward score when `key = 1` and `6 −` forward score otherwise, both in
the Aggregator (`final_score` inside `aggregate_traits`) and in the
Scanner (`summarize.score_item`); a choice outside A–E yields no score. -/
theorem C5_scoring_rubric (choice : String) (key : ℤ) (s : ℚ)
    (h : Agg.choice_score choice = some s) :
    ((choice = "A" ∧ s = 5) ∨ (choice = "B" ∧ s = 4) ∨ (choice = "C" ∧ s = 3)
      ∨ (choice = "D" ∧ s = 2) ∨ (choice = "E" ∧ s = 1))
    ∧ Agg.final_score choice key = some (if key = 1 then s else 6 - s)
    ∧ (∀ r : MPIResult, r.parsed_choice = choice → r.key = key →
        (Scan.score_item r).2 = some (if key = 1 then s else 6 - s))
    ∧ (∀ c k, Agg.choice_score c = none → Agg.final_score c k = none) := by
  have hs : SCORES choice = some s := h
  have hr : (choice = "A" ∧ s = 5) ∨ (choice = "B" ∧ s = 4)
      ∨ (choice = "C" ∧ s = 3) ∨ (choice = "D" ∧ s = 2)
      ∨ (choice = "E" ∧ s = 1) := by
    simp only [SCORES] at hs
    split_ifs at hs with h1 h2 h3 h4 h5
    · exact Or.inl ⟨h1, by simpa using hs.symm⟩
    · exact Or.inr (Or.inl ⟨h2, by simpa using hs.symm⟩)
    · exact Or.inr (Or.inr (Or.inl ⟨h3, by simpa using hs.symm⟩))
    · exact Or.inr (Or.inr (Or.inr (Or.inl ⟨h4, by simpa using hs.symm⟩)))
    · exact Or.inr (Or.inr (Or.inr (Or.inr ⟨h5, by simpa using hs.symm⟩)))
  have hne : choice ≠ "" := by
    rcases hr with ⟨h1, _⟩ | ⟨h1, _⟩ | ⟨h1, _⟩ | ⟨h1, _⟩ | ⟨h1, _⟩ <;>
      simp [h1]
  refine ⟨hr, ?_, ?_, ?_⟩
  · simp [Agg.final_score, Agg.choice_score, hs]
  · intro r hpc hkey
    simp [Scan.score_item, Scan.scanner_choice, hpc, hne, hs, hkey]
  · intro c k hnone
    simp [Agg.final_score, hnone]

/-- **C5 witness** — choice A on a reverse-keyed item (`key = -1`) scores
`6 − 5 = 1` in both scoring paths. -/
theorem C5_scoring_rubric_witness :
    Agg.choice_score "A" = some 5
    ∧ Agg.final_score "A" (-1) = some 1
    ∧ (Scan.score_item demo_rev).2 = some 1 := by
  have h : Agg.choice_score "A" = some 5 := by
    simp [Agg.choice_score, SCORES]
  refine ⟨h, ?_, ?_⟩
  · have h2 := (C5_scoring_rubric "A" (-1) 5 h).2.1
    norm_num at h2
    exact h2
  · have h3 := (C5_scoring_rubric "A" (-1) 5 h).2.2.1 demo_rev rfl rfl
    norm_num at h3
    exact h3

/-- **C10** — inside `compare_with_persona`, the reported correlation is
the explicit `0.0` (not NaN) whenever at least two trait pairs are
compared but the Pearson denominator vanishes (zero variance on either
side); NaN arises exactly when fewer than two pairs are compared. -/
theorem C10_zero_variance_correlation (persona : String → Option ℚ)
    (results : List MPIResult) :
    ((Agg.compared_pairs persona results).length < 2 →
      (Agg.compare_with_persona persona results).correlation
        = Agg.CorrVal.nan)
    ∧ (2 ≤ (Agg.compared_pairs persona results).length →
        Agg.pearson_den_sq
            ((Agg.compared_pairs persona results).map Prod.fst)
            ((Agg.compared_pairs persona results).map Prod.snd) = 0 →
        (Agg.compare_with_persona persona results).correlation
          = Agg.CorrVal.zero)
    ∧ ((Agg.compare_with_persona persona results).correlation
          = Agg.CorrVal.nan →
        (Agg.compared_pairs persona results).length < 2) := by
  by_cases he : (Agg.compared_pairs persona results).isEmpty
  · have h0 : (Agg.compared_pairs persona results).length = 0 :=
      List.isEmpty_iff_length_eq_zero.mp he
    refine ⟨?_, ?_, ?_⟩ <;>
      simp [Agg.compare_with_persona, he, h0] at *
  · have hlen :
        ((Agg.compared_pairs persona results).map Prod.fst).length
          = ((Agg.compared_pairs persona results).map Prod.snd).length := by
      simp
    refine ⟨?_, ?_, ?_⟩
    · intro hlt
      simp [Agg.compare_with_persona, he, Agg.pearson_correlation, hlen,
        hlt]
    · intro hge hden
      have hnotlt :
          ¬ ((Agg.compared_pairs persona results).map Prod.fst).length < 2 :=
        by simpa using hge
      simp [Agg.compare_with_persona, he, Agg.pearson_correlation, hlen,
        hnotlt, hden]
      exact hge
    · intro hnan
      by_contra hlt
      have hge : 2 ≤ (Agg.compared_pairs persona results).length := by
        omega
      have hnotlt :
          ¬ ((Agg.compared_pairs persona results).map Prod.fst).length < 2 :=
        by simpa using hge
      rw [Agg.compare_with_persona] at hnan
      simp [he, Agg.pearson_correlation, hlen, hnotlt] at hnan
      split_ifs at hnan <;> simp_all

/-- **C10 witness** — against the all-3.0 neutral persona, a run with two
measured traits (both mean 5) compares two pairs with zero persona
variance: the Pearson denominator vanishes and the reported correlation is
the explicit `0.0` branch, not NaN. -/
theorem C10_zero_variance_correlation_witness :
    2 ≤ (Agg.compared_pairs persona3 demo_two_OC).length
    ∧ Agg.pearson_den_sq
        ((Agg.compared_pairs persona3 demo_two_OC).map Prod.fst)
        ((Agg.compared_pairs persona3 demo_two_OC).map Prod.snd) = 0
    ∧ (Agg.compare_with_persona persona3 demo_two_OC).correlation
        = Agg.CorrVal.zero := by
  have hsO : Agg.agg_trait_scores demo_two_OC "O" = [5] := by
    simp [Agg.agg_trait_scores, demo_two_OC, Agg.final_score,
      Agg.choice_score, SCORES, List.filterMap_cons]
  have hsC : Agg.agg_trait_scores demo_two_OC "C" = [5] := by
    simp [Agg.agg_trait_scores, demo_two_OC, Agg.final_score,
      Agg.choice_score, SCORES, List.filterMap_cons]
  have hsE : Agg.agg_trait_scores demo_two_OC "E" = [] := by
    simp [Agg.agg_trait_scores, demo_two_OC, Agg.final_score,
      Agg.choice_score, SCORES, List.filterMap_cons]
  have hsA : Agg.agg_trait_scores demo_two_OC "A" = [] := by
    simp [Agg.agg_trait_scores, demo_two_OC, Agg.final_score,
      Agg.choice_score, SCORES, List.filterMap_cons]
  have hsN : Agg.agg_trait_scores demo_two_OC "N" = [] := by
    simp [Agg.agg_trait_scores, demo_two_OC, Agg.final_score,
      Agg.choice_score, SCORES, List.filterMap_cons]
  have hpairs : Agg.compared_pairs persona3 demo_two_OC = [(3, 5), (3, 5)] := by
    norm_num [Agg.compared_pairs, persona3, OCEAN_CODES, Agg.trait_summary,
      hsO, hsC, hsE, hsA, hsN, Agg.trait_stats, List.filterMap_cons]
  have h1 : 2 ≤ (Agg.compared_pairs persona3 demo_two_OC).length := by
    rw [hpairs]; norm_num
  have h2 : Agg.pearson_den_sq
      ((Agg.compared_pairs persona3 demo_two_OC).map Prod.fst)
      ((Agg.compared_pairs persona3 demo_two_OC).map Prod.snd) = 0 := by
    rw [hpairs]; norm_num [Agg.pearson_den_sq]
  exact ⟨h1, h2,
    (C10_zero_variance_correlation persona3 demo_two_OC).2.1 h1 h2⟩

/-- **C4 (amended)** — the Aggregator's trait summary reports NaN for
mean, std, min, max and median (and zero items) on every trait with zero
valid-scored items; the Summary Scanner however reports a trait mean of
`0.0`, not NaN, for such a trait. -/
theorem C4_zero_item_trait_stats (results : List MPIResult) (c : String)
    (h : Agg.agg_trait_scores results c = []) :
    (Agg.trait_summary results c).n_items = 0
    ∧ (Agg.trait_summary results c).mean = none
    ∧ (Agg.trait_summary results c).std_sq = none
    ∧ (Agg.trait_summary results c).min = none
    ∧ (Agg.trait_summary results c).max = none
    ∧ (Agg.trait_summary results c).median = none
    ∧ (Scan.scan_trait_scores results c = [] →
        Scan.trait_mean results c = some 0) := by
  refine ⟨?_, ?_, ?_, ?_, ?_, ?_, fun hs => by simp [Scan.trait_mean, hs]⟩ <;>
    simp [Agg.trait_summary, h, Agg.trait_stats]

/-- **C4 witness** — on a run whose only result is the unknown sentinel,
trait O has zero valid items and the aggregated mean is NaN. -/
theorem C4_zero_item_trait_stats_witness :
    Agg.agg_trait_scores demo_unk "O" = []
    ∧ (Agg.trait_summary demo_unk "O").mean = none := by
  have h : Agg.agg_trait_scores demo_unk "O" = [] := by
    simp [Agg.agg_trait_scores, demo_unk, Agg.final_score, Agg.choice_score,
      SCORES]
  exact ⟨h, (C4_zero_item_trait_stats demo_unk "O" h).2.1⟩

/-- **C4 counterexample** — the claim fails in the Summary Scanner: on the
one-UNK-result run, trait O has zero valid-scored items, yet the scanner's
trait mean is `0.0` (`statistics.mean(scores) if scores else 0.0`), not
NaN. -/
theorem C4_scanner_zero_not_nan :
    Scan.scan_trait_scores demo_unk "O" = []
    ∧ Scan.trait_mean demo_unk "O" = some 0 := by
  have h1 : Scan.scan_trait_scores demo_unk "O" = [] := by
    simp [Scan.scan_trait_scores, Scan.score_item, Scan.scanner_choice,
      demo_unk, SCORES, List.filterMap_cons]
  exact ⟨h1, by simp [Scan.trait_mean, h1]⟩

/-- **C2 (amended)** — per item the Runner issues at most two requests
(exactly one when the retry flag is off), but with the flag on the second
request is issued exactly when the first attempt fails to produce a 200
success-envelope response with a non-UNK parsed choice — i.e. also after
a transport exception, a non-200 status, or a non-success envelope, not
only after the UNK sentinel. -/
theorem C2_retry_budget (item : Runner.Item) (a1 a2 : Runner.Attempt) :
    (Runner.run_assessment_item true item a1 a2).requests ≤ 2
    ∧ (Runner.run_assessment_item false item a1 a2).requests = 1
    ∧ ((Runner.run_assessment_item true item a1 a2).requests = 2
        ↔ Runner.first_attempt_resolved a1 = false) := by
  refine ⟨?_, ?_, ?_⟩ <;>
    rcases a1 with _ | r1 <;> rcases a2 with _ | r2 <;>
      simp [Runner.run_assessment_item, Runner.after_first_error,
        Runner.first_attempt_resolved] <;>
      split_ifs <;> simp_all

/-- **C2 counterexample** — a first attempt that ends in a transport
exception *is* followed by a second request when the retry flag is on:
two requests are issued for this item, refuting "never on transport
error". -/
theorem C2_transport_error_retries :
    Runner.first_attempt_resolved none = false
    ∧ (Runner.run_assessment_item true demo_item none
        (some ok_response_A)).requests = 2 := by
  constructor <;> rfl

/-- Each item contributes one `results` entry exactly when it counts as
successful or unknown (every branch of the attempt loop either appends an
entry and bumps exactly one of the two counters, or appends nothing). -/
theorem run_assessment_item_entry_count (retryUnk : Bool)
    (item : Runner.Item) (a1 a2 : Runner.Attempt) :
    (Runner.run_assessment_item retryUnk item a1 a2).entry.toList.length
        = (Runner.run_assessment_item retryUnk item a1 a2).successful
          + (Runner.run_assessment_item retryUnk item a1 a2).unknown
    ∧ (Runner.run_assessment_item retryUnk item a1 a2).successful
        + (Runner.run_assessment_item retryUnk item a1 a2).unknown ≤ 1 := by
  rcases a1 with _ | r1 <;> rcases a2 with _ | r2 <;>
    simp [Runner.run_assessment_item, Runner.after_first_error] <;>
    split_ifs <;> simp

/-- **C1 (amended)** — for every run, `len(results)` equals
`statistics.successful + statistics.unknown` (entries exist exactly for
items that got a 200 success envelope within the attempt budget) and is
at most — not always equal to — the number of items attempted. -/
theorem C1_results_length (retryUnk : Bool)
    (rows : List (Runner.Item × Runner.Attempt × Runner.Attempt)) :
    (Runner.run_assessment retryUnk rows).results.length
        = (Runner.run_assessment retryUnk rows).successful
          + (Runner.run_assessment retryUnk rows).unknown
    ∧ (Runner.run_assessment retryUnk rows).results.length
        ≤ (Runner.run_assessment retryUnk rows).total_items
    ∧ (Runner.run_assessment retryUnk rows).total_items = rows.length := by
  induction rows with
  | nil => simp [Runner.run_assessment]
  | cons row rest ih =>
    obtain ⟨item, a1, a2⟩ := row
    have h := run_assessment_item_entry_count retryUnk item a1 a2
    by_cases ht : item.text = "" <;>
      simp [Runner.run_assessment, ht, List.length_append] <;>
      omega

/-- **C1 counterexample** — an item whose two attempts both end in a
transport exception is dropped: of two attempted items (the second of
which succeeds, showing the run continued), only one entry reaches
`results`, so `len(results) != total items attempted`. -/
theorem C1_failed_item_dropped :
    (Runner.run_assessment true demo_rows).total_items = 2
    ∧ (Runner.run_assessment true demo_rows).results.length = 1
    ∧ (Runner.run_assessment true demo_rows).results.length
        ≠ (Runner.run_assessment true demo_rows).total_items
    ∧ (Runner.run_assessment true demo_rows).errors = 2 := by
  refine ⟨rfl, rfl, ?_, rfl⟩
  decide

/-- When the recorded `parsed_choice` is nonempty, the Scanner's
`score_item` resolves the choice via `parsed_choice` and computes exactly
the Aggregator's final score. -/
theorem score_item_eq_agg (r : MPIResult) (h : r.parsed_choice ≠ "") :
    Scan.score_item r = (r.label_ocean, Agg.final_score r.parsed_choice r.key) := by
  simp [Scan.score_item, Scan.scanner_choice, Agg.final_score,
    Agg.choice_score, h]

/-- Under nonempty recorded parsed choices, both paths build identical
per-trait score lists. -/
theorem scan_scores_eq_agg (results : List MPIResult) (c : String)
    (hpc : ∀ r ∈ results, r.parsed_choice ≠ "") :
    Scan.scan_trait_scores results c = Agg.agg_trait_scores results c := by
  apply List.filterMap_congr
  intro r hr
  rw [score_item_eq_agg r (hpc r hr)]
  cases h : Agg.final_score r.parsed_choice r.key <;> simp [h]

/-- Under nonempty recorded parsed choices, the Scanner's unknown count
coincides with the Aggregator's `unk_items` count. -/
theorem scan_unknown_eq_agg (results : List MPIResult)
    (hpc : ∀ r ∈ results, r.parsed_choice ≠ "") :
    Scan.unknown_responses results = Agg.unk_count results := by
  apply congrArg List.length
  apply List.filter_congr
  intro r hr
  rw [score_item_eq_agg r (hpc r hr)]
  cases h : Agg.choice_score r.parsed_choice <;>
    simp [Agg.final_score, h]

/-- When every result carries a trait code in `{O,C,E,A,N}`, the Scanner's
`valid + unknown` total equals the artifact's result count (the
Aggregator's `total_items`). -/
theorem scan_total_eq_length (results : List MPIResult)
    (htr : ∀ r ∈ results, r.label_ocean ∈ OCEAN_CODES) :
    Scan.total_responses results = results.length := by
  induction results with
  | nil => rfl
  | cons r rs ih =>
    have hr := htr r (List.mem_cons_self r rs)
    have ih2 := ih fun x hx => htr x (List.mem_cons_of_mem r hx)
    simp only [Scan.total_responses, Scan.valid_responses,
      Scan.unknown_responses, List.filter_cons] at ih2 ⊢
    have hfst : (Scan.score_item r).1 = r.label_ocean := rfl
    cases hso : (Scan.score_item r).2 <;>
      simp [hso, hfst, hr, List.length_cons] <;>
      omega

/-- **C3 (amended)** — for artifacts whose results all carry a nonempty
parsed choice and a valid trait code, the Summary Scanner's offline
recomputation matches the online Aggregator path: equal unknown counts
and totals (hence equal unknown rates), correlation/MAE/RMSE produced by
the very same aggregator comparison, and equal trait means on every trait
with at least one valid-scored item.  (For a zero-valid trait the paths
differ — see the counterexample.) -/
theorem C3_scanner_matches_online (results : List MPIResult)
    (p : String → Option ℚ)
    (hpc : ∀ r ∈ results, r.parsed_choice ≠ "")
    (htr : ∀ r ∈ results, r.label_ocean ∈ OCEAN_CODES) :
    (∀ c, Agg.agg_trait_scores results c ≠ [] →
        Scan.trait_mean results c = Orch.extract_means results c)
    ∧ Scan.unknown_responses results = Agg.unk_count results
    ∧ Scan.total_responses results = results.length
    ∧ Scan.scan_correlation (some p) results
        = (Agg.compare_with_persona p results).correlation
    ∧ Scan.scan_mae (some p) results
        = (Agg.compare_with_persona p results).mae
    ∧ Scan.scan_rmse_sq (some p) results
        = (Agg.compare_with_persona p results).rmse_sq := by
  refine ⟨?_, scan_unknown_eq_agg results hpc,
    scan_total_eq_length results htr, rfl, rfl, rfl⟩
  intro c hne
  have hsc := scan_scores_eq_agg results c hpc
  have hemp : (Agg.agg_trait_scores results c).isEmpty = false := by
    simpa [List.isEmpty_iff] using hne
  simp [Scan.trait_mean, hsc, Orch.extract_means, Agg.trait_summary,
    Agg.trait_stats, hemp]

/-- **C3 witness** — the equivalence instantiated on a five-item artifact
(one valid answer per trait) against the neutral persona. -/
theorem C3_scanner_matches_online_witness :
    (∀ r ∈ demo_results5, r.parsed_choice ≠ "")
    ∧ (∀ r ∈ demo_results5, r.label_ocean ∈ OCEAN_CODES)
    ∧ Scan.unknown_responses demo_results5 = Agg.unk_count demo_results5
    ∧ Scan.total_responses demo_results5 = demo_results5.length := by
  have h1 : ∀ r ∈ demo_results5, r.parsed_choice ≠ "" := by decide
  have h2 : ∀ r ∈ demo_results5, r.label_ocean ∈ OCEAN_CODES := by decide
  exact ⟨h1, h2,
    (C3_scanner_matches_online demo_results5 persona3 h1 h2).2.1,
    (C3_scanner_matches_online demo_results5 persona3 h1 h2).2.2.1⟩

/-- **C3 counterexample** — the recomputation is *not* identical on every
artifact: on a one-result artifact whose only valid item is trait O, the
Scanner's E-trait mean is `0.0` while the online path
(`extract_means` over the Aggregator's trait summary) reports NaN. -/
theorem C3_zero_trait_divergence :
    Scan.trait_mean demo_valid_O "E" = some 0
    ∧ Orch.extract_means demo_valid_O "E" = none := by
  have h1 : Scan.scan_trait_scores demo_valid_O "E" = [] := by
    simp [Scan.scan_trait_scores, Scan.score_item, Scan.scanner_choice,
      demo_valid_O, SCORES, List.filterMap_cons]
  have h2 : Agg.agg_trait_scores demo_valid_O "E" = [] := by
    simp [Agg.agg_trait_scores, demo_valid_O, Agg.final_score,
      Agg.choice_score, SCORES, List.filterMap_cons]
  constructor
  · simp [Scan.trait_mean, h1]
  · simp [Orch.extract_means, Agg.trait_summary, h2, Agg.trait_stats]

/-- Cauchy–Schwarz for list sums: `(Σx)² ≤ n · Σx²`. -/
theorem sum_sq_le_card_mul_sum_sq (x : List ℚ) :
    x.sum * x.sum ≤ (x.length : ℚ) * (x.map fun v => v * v).sum := by
  induction x with
  | nil => simp
  | cons a xs ih =>
    simp only [List.sum_cons, List.map_cons, List.length_cons]
    push_cast
    rcases eq_or_ne xs [] with h0 | h0
    · subst h0
      simp
    · have hn1 : (1 : ℚ) ≤ (xs.length : ℚ) := by
        have : 1 ≤ xs.length := List.length_pos.mpr h0
        exact_mod_cast this
      nlinarith [ih, sq_nonneg ((xs.length : ℚ) * a - xs.sum), hn1,
        mul_nonneg (by linarith : (0 : ℚ) ≤ (xs.length : ℚ) + 1)
          (by linarith [ih] : (0 : ℚ) ≤ (xs.length : ℚ)
            * (List.map (fun v => v * v) xs).sum - xs.sum * xs.sum)]

/-- Expansion of the residual sum of squares of an affine fit in terms of
the moment sums. -/
theorem rss_expand (x : List ℚ) : ∀ (y : List ℚ), x.length = y.length →
    ∀ a b : ℚ,
    Orch.rss x y a b
      = (y.map fun v => v * v).sum
        - 2 * a * (List.zipWith (· * ·) x y).sum - 2 * b * y.sum
        + a * a * (x.map fun v => v * v).sum + 2 * a * b * x.sum
        + (x.length : ℚ) * (b * b) := by
  induction x with
  | nil =>
    intro y h a b
    cases y with
    | nil => simp [Orch.rss]
    | cons yh yt => simp at h
  | cons xh xt ih =>
    intro y h a b
    cases y with
    | nil => simp at h
    | cons yh yt =>
      have h' : xt.length = yt.length := by simpa using h
      have ih2 := ih yt h' a b
      simp only [Orch.rss] at ih2 ⊢
      simp only [List.zipWith_cons_cons, List.sum_cons, List.map_cons,
        List.length_cons]
      rw [ih2]
      push_cast
      ring

/-- Minimisation of the expanded residual quadratic: the closed-form OLS
slope and intercept minimise it over all affine fits. -/
theorem quad_min (n Sx Sy Sxx Sxy Syy a b slope icept : ℚ)
    (hn : 0 < n) (hD : 0 < n * Sxx - Sx * Sx)
    (hslope : slope = (n * Sxy - Sx * Sy) / (n * Sxx - Sx * Sx))
    (hicept : icept = Sy / n - slope * (Sx / n)) :
    Syy - 2 * slope * Sxy - 2 * icept * Sy + slope * slope * Sxx
        + 2 * slope * icept * Sx + n * (icept * icept)
      ≤ Syy - 2 * a * Sxy - 2 * b * Sy + a * a * Sxx + 2 * a * b * Sx
        + n * (b * b) := by
  have key :
      (Syy - 2 * a * Sxy - 2 * b * Sy + a * a * Sxx + 2 * a * b * Sx
          + n * (b * b))
        - (Syy - 2 * slope * Sxy - 2 * icept * Sy + slope * slope * Sxx
            + 2 * slope * icept * Sx + n * (icept * icept))
      = n * ((b - (Sy - a * Sx) / n) * (b - (Sy - a * Sx) / n))
        + ((n * Sxx - Sx * Sx) / n) * ((a - slope) * (a - slope)) := by
    subst hicept
    subst hslope
    field_simp
    ring
  have h1 : 0 ≤ n * ((b - (Sy - a * Sx) / n) * (b - (Sy - a * Sx) / n)) :=
    mul_nonneg hn.le (mul_self_nonneg _)
  have h2 : 0 ≤ ((n * Sxx - Sx * Sx) / n) * ((a - slope) * (a - slope)) :=
    mul_nonneg (div_nonneg hD.le hn.le) (mul_self_nonneg _)
  linarith

/-- **C6 (amended)** — `linear_fit` computes the ordinary-least-squares
slope (its slope/intercept minimise the residual sum of squares over all
affine fits) and `R² = 1 − SS_res/SS_tot` when `SS_tot > 0`; but when
`SS_tot = 0` it reports `R² = NaN` — not 0 (and not 1). -/
theorem C6_linear_fit_ols (x y : List ℚ) (hlen : x.length = y.length)
    (h2 : 2 ≤ x.length) (hden : Orch.fit_denom x ≠ 0) :
    (∀ a b : ℚ,
      Orch.rss x y (Orch.fit_slope x y) (Orch.fit_intercept x y)
        ≤ Orch.rss x y a b)
    ∧ (Orch.linear_fit x y).1 = some (Orch.fit_slope x y)
    ∧ (0 < Orch.ss_tot x y →
        (Orch.linear_fit x y).2
          = some (1 - Orch.ss_res x y / Orch.ss_tot x y))
    ∧ (Orch.ss_tot x y = 0 → (Orch.linear_fit x y).2 = none) := by
  have hnl : ¬ x.length < 2 := by omega
  have hn : (0 : ℚ) < x.length := by
    have : 0 < x.length := by omega
    exact_mod_cast this
  have hDnn : 0 ≤ (x.length : ℚ) * (x.map fun v => v * v).sum
      - x.sum * x.sum := by
    have := sum_sq_le_card_mul_sum_sq x
    linarith
  have hDne : (x.length : ℚ) * (x.map fun v => v * v).sum
      - x.sum * x.sum ≠ 0 := hden
  have hDpos : 0 < (x.length : ℚ) * (x.map fun v => v * v).sum
      - x.sum * x.sum := lt_of_le_of_ne hDnn (Ne.symm hDne)
  refine ⟨?_, ?_, ?_, ?_⟩
  · intro a b
    rw [rss_expand x y hlen (Orch.fit_slope x y) (Orch.fit_intercept x y),
      rss_expand x y hlen a b]
    exact quad_min (x.length : ℚ) x.sum y.sum
      ((x.map fun v => v * v).sum) ((List.zipWith (· * ·) x y).sum)
      ((y.map fun v => v * v).sum) a b
      (Orch.fit_slope x y) (Orch.fit_intercept x y) hn hDpos rfl rfl
  · simp [Orch.linear_fit, hnl, hden]
  · intro hpos
    simp [Orch.linear_fit, hnl, hden, hpos]
  · intro hzero
    simp [Orch.linear_fit, hnl, hden, hzero]

/-- **C6 witness** — the fit over the spec's sensitivity points
(2→2.1, 3→3.0, 4→3.9, 5→5.1) is in scope of the OLS theorem and its
slope is defined (`99/100`, close to 1 as the spec expects). -/
theorem C6_linear_fit_ols_witness :
    ([(2 : ℚ), 3, 4, 5].length = [(21 : ℚ) / 10, 3, 39 / 10, 51 / 10].length)
    ∧ 2 ≤ ([(2 : ℚ), 3, 4, 5].length)
    ∧ Orch.fit_denom [(2 : ℚ), 3, 4, 5] ≠ 0
    ∧ (Orch.linear_fit [(2 : ℚ), 3, 4, 5] [21 / 10, 3, 39 / 10, 51 / 10]).1
        = some (Orch.fit_slope [(2 : ℚ), 3, 4, 5] [21 / 10, 3, 39 / 10, 51 / 10]) := by
  have hd : Orch.fit_denom [(2 : ℚ), 3, 4, 5] ≠ 0 := by
    norm_num [Orch.fit_denom]
  exact ⟨rfl, by norm_num, hd,
    (C6_linear_fit_ols [(2 : ℚ), 3, 4, 5] [21 / 10, 3, 39 / 10, 51 / 10]
      rfl (by norm_num) hd).2.1⟩

/-- **C6 counterexample** — on points with zero variance in the measured
values (`x = [1,2]`, `y = [3,3]`, so `SS_tot = 0` and the slope
denominator is 1 ≠ 0), `linear_fit` reports `R² = NaN`, not the `R² = 0`
the claim states. -/
theorem C6_sstot_zero_reports_nan :
    (Orch.linear_fit [(1 : ℚ), 2] [3, 3]).2 = none
    ∧ (Orch.linear_fit [(1 : ℚ), 2] [3, 3]).2 ≠ some 0 := by
  have h : (Orch.linear_fit [(1 : ℚ), 2] [3, 3]).2 = none := by
    norm_num [Orch.linear_fit, Orch.fit_denom, Orch.ss_tot]
  exact ⟨h, by simp [h]⟩
